import Mathlib

/-!
Shallow embedding of the data pipeline of `src/app.py` (Tawsif Travel dashboard):
the workbook loader's date coercion, the structure validator, the column-name
normalizer, the filter engine, the KPI aggregation, the session/dashboard gate,
and the footer date formatting.
-/

namespace Tawsif

/-! ### Dates and timestamps

`pd.to_datetime(..., errors='coerce')` (src/app.py line 117) parses each cell to a
timestamp, keeping any time-of-day present in the cell; unparseable cells become
the sentinel `NaT`.  A timestamp is a calendar day (days since an epoch) plus the
seconds elapsed within that day. -/

/-- A pandas timestamp: a calendar day plus seconds-of-day. -/
structure Timestamp where
  days : Int
  secs : Nat
deriving DecidableEq

/-- Ordering on timestamps: lexicographic on (day, seconds-of-day). -/
def Timestamp.le (a b : Timestamp) : Prop :=
  a.days < b.days ∨ (a.days = b.days ∧ a.secs ≤ b.secs)

instance (a b : Timestamp) : Decidable (Timestamp.le a b) :=
  inferInstanceAs (Decidable (_ ∨ _))

/-- A value of a `Date` column cell after loading: either the missing-value
sentinel `NaT` or a timestamp. -/
inductive DateVal where
  | NaT : DateVal
  | ts : Timestamp → DateVal
deriving DecidableEq

/-- Embeds `pd.to_datetime(cell, errors='coerce')` on one cell: a parseable cell
(modelled as `some t`, with `t` its parsed timestamp) keeps its timestamp intact,
an unparseable cell (`none`) is coerced to `NaT`. -/
def toDatetime : Option Timestamp → DateVal
  | some t => .ts t
  | none => .NaT

/-- Embeds the loader's `df['Date'] = pd.to_datetime(df['Date'], errors='coerce')`
(src/app.py lines 116-117) applied to a whole column. -/
def loadDateColumn (cells : List (Option Timestamp)) : List DateVal :=
  cells.map toDatetime

/-- A date value is a pure calendar date when it carries no time-of-day
component (`NaT`, the sentinel, carries none). -/
def pureDate : DateVal → Bool
  | .NaT => true
  | .ts t => t.secs == 0

/-- The calendar-day part of a date value, when one exists. -/
def datePart : DateVal → Option Int
  | .NaT => none
  | .ts t => some t.days

/-- A raw cell carries no time-of-day. -/
def cellPure : Option Timestamp → Bool
  | some t => t.secs == 0
  | none => true

/-! ### Schema registry (src/app.py lines 131-147 and 192-220) -/

/-- A table at the schema level: its column names and its record count
(pandas `df.columns` and `len(df)`; `df.empty` is `nrows = 0`). -/
structure STable where
  cols : List String
  nrows : Nat
deriving DecidableEq

/-- Embeds `required_structure` (src/app.py lines 132-138): required canonical
columns per canonical sheet. -/
def requiredStructure : List (String × List String) :=
  [("Daily_Summary", ["Date", "Daily Sales", "Cash Balance", "Bank Balance"]),
   ("Tickets_By_Airline", ["Date", "Branch", "Airline", "Tickets Issued"]),
   ("Airline_Sales", ["Date", "Branch", "Airline", "Sales"]),
   ("Staff_Sales", ["Date", "Branch", "Staff", "Tickets Issued", "Sales"]),
   ("Bank_Balances", ["Date", "Branch", "Bank", "Balance"])]

/-- Embeds `column_alternatives` (src/app.py lines 141-147): accepted alternative
spellings for some required columns. -/
def columnAlternatives : List (String × List String) :=
  [("Daily Sales", ["Daily_Sales", "daily_sales", "Sales", "Total Sales"]),
   ("Cash Balance", ["Cash_Balance", "cash_balance", "Cash"]),
   ("Bank Balance", ["Bank_Balance", "bank_balance", "Bank"]),
   ("Tickets Issued", ["Tickets_Issued", "tickets_issued", "Tickets"]),
   ("Balance", ["balance", "Amount", "amount"])]

/-- Embeds `column_alternatives.get(req_col, [req_col])` (src/app.py line 172):
the registered alternatives of a required column, defaulting to the canonical
name alone. -/
def altsOrDefault (req : String) : List String :=
  match columnAlternatives.lookup req with
  | some l => l
  | none => [req]

/-- Embeds the per-column check of `validate_data_structure` (src/app.py lines
165-177): a required column is found when its canonical name is among the
table's columns, or any registered alternative is. -/
def colFound (req : String) (dfCols : List String) : Bool :=
  dfCols.contains req || (altsOrDefault req).any (fun alt => dfCols.contains alt)

/-- Leading and trailing whitespace removed from a character list. -/
def stripChars (l : List Char) : List Char :=
  ((l.dropWhile Char.isWhitespace).reverse.dropWhile Char.isWhitespace).reverse

/-- Embeds Python's `str.strip()` (used on column headers, src/app.py lines 114
and 162): leading and trailing whitespace removed. -/
def strip (s : String) : String := String.mk (stripChars s.data)

/-! ### Structure validator (src/app.py lines 126-188) -/

/-- One entry of `validation_results`.  The source emits formatted strings; each
constructor records one such message with its data:
`missingSheet s`  = "Missing sheet: s",
`emptySheet s`    = "Sheet s is empty",
`missingColumns`  = "Sheet s missing columns: [...]",
`availableColumns`= "Available columns: [...]",
`success s n`     = "Sheet s: n records". -/
inductive Msg where
  | missingSheet (sheet : String)
  | emptySheet (sheet : String)
  | missingColumns (sheet : String) (cols : List String)
  | availableColumns (sheet : String) (cols : List String)
  | success (sheet : String) (records : Nat)
deriving DecidableEq

/-- Embeds one iteration of the validation loop (src/app.py lines 149-186) for
one sheet entry: missing sheet, empty sheet, missing required columns (with the
available columns echoed), or success with the record count.  Returns the
messages this sheet contributes and whether the sheet passed. -/
def validateSheet (dict : List (String × STable)) (entry : String × List String) :
    List Msg × Bool :=
  match dict.lookup entry.1 with
  | none => ([.missingSheet entry.1], false)
  | some df =>
    if df.nrows = 0 then ([.emptySheet entry.1], false)
    else
      let dfCols := df.cols.map strip
      let missing := entry.2.filter (fun req => !(colFound req dfCols))
      if missing ≠ [] then
        ([.missingColumns entry.1 missing, .availableColumns entry.1 dfCols], false)
      else
        ([.success entry.1 df.nrows], true)

/-- Embeds `validate_data_structure` (src/app.py lines 126-188): fold over the
five canonical sheets in fixed order, accumulating the validity flag and the
message list. -/
def validate_data_structure (dict : List (String × STable)) : Bool × List Msg :=
  requiredStructure.foldl
    (fun acc entry =>
      let r := validateSheet dict entry
      (acc.1 && r.2, acc.2 ++ r.1))
    (true, [])

/-! ### Name normalizer (src/app.py lines 190-229) -/

/-- Embeds `column_mapping` (src/app.py lines 192-220): per-sheet renaming of
alternative column spellings to canonical names. -/
def column_mapping : List (String × List (String × String)) :=
  [("Daily_Summary",
    [("Daily_Sales", "Daily Sales"), ("daily_sales", "Daily Sales"),
     ("Sales", "Daily Sales"), ("Total Sales", "Daily Sales"),
     ("Cash_Balance", "Cash Balance"), ("cash_balance", "Cash Balance"),
     ("Cash", "Cash Balance"),
     ("Bank_Balance", "Bank Balance"), ("bank_balance", "Bank Balance"),
     ("Bank", "Bank Balance")]),
   ("Tickets_By_Airline",
    [("Tickets_Issued", "Tickets Issued"), ("tickets_issued", "Tickets Issued"),
     ("Tickets", "Tickets Issued")]),
   ("Staff_Sales",
    [("Tickets_Issued", "Tickets Issued"), ("tickets_issued", "Tickets Issued"),
     ("Tickets", "Tickets Issued")]),
   ("Bank_Balances",
    [("balance", "Balance"), ("Amount", "Balance"), ("amount", "Balance")])]

/-- The renaming table in force for a sheet (empty for sheets with no entry in
`column_mapping`). -/
def columnMappingFor (sheet : String) : List (String × String) :=
  (column_mapping.lookup sheet).getD []

/-- Embeds `df.rename(columns=mapping)` on one column label: a label in the
mapping is replaced by its image, any other label is left untouched. -/
def renameCol (m : List (String × String)) (c : String) : String :=
  match m.lookup c with
  | some v => v
  | none => c

/-- Embeds the body of the `normalize_column_names` loop (src/app.py lines
222-227) for one sheet: rename the columns when the sheet has a mapping,
otherwise pass the table through. -/
def normalizeTable (sheet : String) (t : STable) : STable :=
  match column_mapping.lookup sheet with
  | some m => { t with cols := t.cols.map (renameCol m) }
  | none => t

/-- Embeds `normalize_column_names` (src/app.py lines 190-229). -/
def normalize_column_names (dict : List (String × STable)) : List (String × STable) :=
  dict.map (fun p => (p.1, normalizeTable p.1 p.2))

/-- The column names of every table of a sheet mapping. -/
def colNames (dict : List (String × STable)) : List (String × List String) :=
  dict.map (fun p => (p.1, p.2.cols))

/-! ### Session state and dashboard gate (src/app.py lines 253-287, 341) -/

/-- The per-user session state: `st.session_state.data_loaded` and
`st.session_state.data_dict`. -/
structure Session where
  dataLoaded : Bool
  dataDict : List (String × STable)
deriving DecidableEq

/-- Embeds the session-state initialization (src/app.py lines 254-256). -/
def initSession : Session := { dataLoaded := false, dataDict := [] }

/-- Embeds the upload-processing branch (src/app.py lines 277-285): on a valid
workbook the normalized tables are stored and `data_loaded` is set; on a failed
validation only error messages are shown and the session state is untouched. -/
def processUpload (s : Session) (dict : List (String × STable)) : Session :=
  if (validate_data_structure dict).1 then
    { dataLoaded := true, dataDict := normalize_column_names dict }
  else s

/-- Embeds the dashboard gate (src/app.py line 341):
`if st.session_state.data_loaded and st.session_state.data_dict:`. -/
def dashboardShown (s : Session) : Bool :=
  s.dataLoaded && !s.dataDict.isEmpty

/-! ### Filter engine and KPIs (src/app.py lines 394-457) -/

/-- A record at the filter level: its `Date` cell, its `Branch` cell, and the
numeric cell the KPIs aggregate (`Daily Sales`, `Tickets Issued`, ...). -/
structure FRow where
  date : DateVal
  branch : String
  value : Int
deriving DecidableEq

/-- A table at the filter level: whether it has `Date` and `Branch` columns, and
its records. -/
structure FTable where
  hasDate : Bool
  hasBranch : Bool
  rows : List FRow
deriving DecidableEq

/-- Embeds the date-range mask (src/app.py line 400):
`(Date >= pd.Timestamp(start_date)) & (Date <= pd.Timestamp(end_date))`.
`pd.Timestamp` of a calendar date is midnight of that day; comparisons against
`NaT` are false, so `NaT` rows are dropped. -/
def dateInRange (s e : Int) : DateVal → Bool
  | .NaT => false
  | .ts t => decide (Timestamp.le ⟨s, 0⟩ t) && decide (Timestamp.le t ⟨e, 0⟩)

/-- Embeds one iteration of the `filtered_data` loop (src/app.py lines 394-407):
apply the date mask when the table has a `Date` column, then the branch equality
filter when a branch other than `'All'` is selected and the table has a `Branch`
column. -/
def filterTable (s e : Int) (branch : String) (t : FTable) : FTable :=
  let afterDate :=
    if t.hasDate = true then t.rows.filter (fun r => dateInRange s e r.date) else t.rows
  let afterBranch :=
    if branch ≠ "All" ∧ t.hasBranch = true then
      afterDate.filter (fun r => r.branch == branch)
    else afterDate
  { t with rows := afterBranch }

/-- Embeds the Total Tickets KPI (src/app.py lines 425-435): when the
`Tickets_By_Airline` table is present and non-empty its `Tickets Issued` column
is summed, otherwise the metric reports `none` ("No data"). -/
def totalTicketsKPI (fd : List (String × FTable)) : Option Int :=
  match fd.lookup "Tickets_By_Airline" with
  | some t => if t.rows.isEmpty then none else some (t.rows.map (fun r => r.value)).sum
  | none => none

/-! ### Footer date formatting (src/app.py lines 629-639) -/

/-- A calendar date as year, month, day. -/
structure SDate where
  year : Nat
  month : Nat
  day : Nat
deriving DecidableEq

/-- The decimal digit character for `n` (`n < 10`). -/
def digitChar (n : Nat) : Char := Char.ofNat (48 + n)

/-- Zero-padded two-digit decimal rendering (strftime `%m` / `%d`, for
arguments below 100). -/
def fmt2 (n : Nat) : String := String.mk [digitChar (n / 10), digitChar (n % 10)]

/-- Zero-padded four-digit decimal rendering (strftime `%Y`, for arguments
below 10000). -/
def fmt4 (n : Nat) : String :=
  String.mk [digitChar (n / 1000), digitChar (n / 100 % 10),
             digitChar (n / 10 % 10), digitChar (n % 10)]

/-- Embeds the footer's `start_date.strftime("%Y-%m-%d")` (src/app.py lines
637-638). -/
def footerDateFormat (d : SDate) : String :=
  fmt4 d.year ++ "-" ++ fmt2 d.month ++ "-" ++ fmt2 d.day

/-! ### Concrete sample data used in witnesses and counterexamples -/

/-- A one-record table with the given column names. -/
def goodTable (cols : List String) : STable := { cols := cols, nrows := 1 }

/-- A workbook whose five sheets carry exactly the canonical columns (the
shape of the sample template, src/app.py lines 293-325). -/
def goodDict : List (String × STable) :=
  [("Daily_Summary", goodTable ["Date", "Daily Sales", "Cash Balance", "Bank Balance"]),
   ("Tickets_By_Airline", goodTable ["Date", "Branch", "Airline", "Tickets Issued"]),
   ("Airline_Sales", goodTable ["Date", "Branch", "Airline", "Sales"]),
   ("Staff_Sales", goodTable ["Date", "Branch", "Staff", "Tickets Issued", "Sales"]),
   ("Bank_Balances", goodTable ["Date", "Branch", "Bank", "Balance"])]

/-- A `Tickets_By_Airline` table carrying both the canonical `Tickets Issued`
column and its alternative spelling `Tickets`. -/
def dupTicketsTable : STable :=
  { cols := ["Date", "Branch", "Airline", "Tickets Issued", "Tickets"], nrows := 1 }

/-- `goodDict` with the `Tickets_By_Airline` sheet replaced by
`dupTicketsTable`. -/
def dupDict : List (String × STable) :=
  [("Daily_Summary", goodTable ["Date", "Daily Sales", "Cash Balance", "Bank Balance"]),
   ("Tickets_By_Airline", dupTicketsTable),
   ("Airline_Sales", goodTable ["Date", "Branch", "Airline", "Sales"]),
   ("Staff_Sales", goodTable ["Date", "Branch", "Staff", "Tickets Issued", "Sales"]),
   ("Bank_Balances", goodTable ["Date", "Branch", "Bank", "Balance"])]

/-- `goodDict` with the `Bank_Balances` sheet absent entirely. -/
def missingBankDict : List (String × STable) :=
  [("Daily_Summary", goodTable ["Date", "Daily Sales", "Cash Balance", "Bank Balance"]),
   ("Tickets_By_Airline", goodTable ["Date", "Branch", "Airline", "Tickets Issued"]),
   ("Airline_Sales", goodTable ["Date", "Branch", "Airline", "Sales"]),
   ("Staff_Sales", goodTable ["Date", "Branch", "Staff", "Tickets Issued", "Sales"])]

/-- Recognizes the "Missing sheet" validation messages. -/
def isMissingSheetMsg : Msg → Bool
  | .missingSheet _ => true
  | _ => false

/-- Whether a validation message is about the given sheet. -/
def mentionsSheet (s : String) : Msg → Bool
  | .missingSheet x => x == s
  | .emptySheet x => x == s
  | .missingColumns x _ => x == s
  | .availableColumns x _ => x == s
  | .success x _ => x == s

/-- Whether the calendar-day part of a date value lies in the inclusive range
`[s, e]` (a `NaT` value has no calendar day). -/
def datePartInRange (s e : Int) (d : DateVal) : Bool :=
  match datePart d with
  | some x => decide (s ≤ x ∧ x ≤ e)
  | none => false

/-- A single record whose `Date` cell carries the time-of-day 01:00. -/
def c1Row : FRow := { date := .ts ⟨0, 3600⟩, branch := "Main", value := 0 }

/-- A one-record table (with `Date` and `Branch` columns) holding `c1Row`. -/
def c1Table : FTable := { hasDate := true, hasBranch := true, rows := [c1Row] }

/-- A two-record table whose `Date` cells are pure calendar dates. -/
def c1PureTable : FTable :=
  { hasDate := true, hasBranch := true,
    rows := [⟨.ts ⟨0, 0⟩, "Main", 1⟩, ⟨.ts ⟨2, 0⟩, "Main", 2⟩] }

/-! ### Helper lemmas -/

/-- A successful association-list lookup comes from a member of the list. -/
lemma lookup_mem {β : Type} {l : List (String × β)} {a : String} {b : β}
    (h : l.lookup a = some b) : (a, b) ∈ l := by
  induction l with
  | nil => simp [List.lookup] at h
  | cons p t ih =>
    obtain ⟨k, v⟩ := p
    simp only [List.lookup] at h
    cases hak : a == k with
    | true =>
      rw [hak] at h
      simp only [Option.some.injEq] at h
      subst h
      have hk : a = k := eq_of_beq hak
      subst hk
      exact List.mem_cons_self _ _
    | false =>
      rw [hak] at h
      exact List.mem_cons_of_mem _ (ih h)

/-- No canonical column name produced by any sheet's renaming table is itself a
key of that table. -/
lemma cm_vals : ∀ q ∈ column_mapping, ∀ p ∈ q.2, q.2.lookup p.2 = none := by decide

/-- Renaming a column twice through a mapping whose values are not keys is the
same as renaming it once. -/
lemma renameCol_idem {m : List (String × String)}
    (hm : ∀ p ∈ m, m.lookup p.2 = none) (c : String) :
    renameCol m (renameCol m c) = renameCol m c := by
  cases h : m.lookup c with
  | none => simp [renameCol, h]
  | some v =>
    have hv : m.lookup v = none := hm (c, v) (lookup_mem h)
    simp [renameCol, h, hv]

/-- Normalizing a table twice yields the same column names as normalizing it
once. -/
lemma normalizeTable_cols_idem (s : String) (t : STable) :
    (normalizeTable s (normalizeTable s t)).cols = (normalizeTable s t).cols := by
  cases h : column_mapping.lookup s with
  | none => simp [normalizeTable, h]
  | some m =>
    have hm : ∀ p ∈ m, m.lookup p.2 = none := cm_vals (s, m) (lookup_mem h)
    simp only [normalizeTable, h, List.map_map]
    exact List.map_congr_left fun c _ => renameCol_idem hm c

/-! ### Claim theorems -/

/-- C6: normalization is idempotent — for every mapping of sheet names to
tables, applying `normalize_column_names` twice yields tables with the same
column names as applying it once. -/
theorem c6_normalize_idempotent (dict : List (String × STable)) :
    colNames (normalize_column_names (normalize_column_names dict)) =
      colNames (normalize_column_names dict) := by
  simp only [normalize_column_names, colNames, List.map_map]
  refine List.map_congr_left fun p _ => ?_
  simp only [Function.comp_apply]
  exact congrArg (Prod.mk p.1) (normalizeTable_cols_idem p.1 p.2)

/-- C3: for every required column of every canonical sheet, a registered
alternative spelling present among a table's columns makes validation report
the column as satisfied, and normalization renames that alternative to the
canonical name. -/
theorem c3_alternatives_accepted (sheet req alt : String)
    (reqs alts cols : List String)
    (hs : (sheet, reqs) ∈ requiredStructure) (hr : req ∈ reqs)
    (ha : columnAlternatives.lookup req = some alts) (halt : alt ∈ alts)
    (hcols : alt ∈ cols) :
    colFound req cols = true ∧ renameCol (columnMappingFor sheet) alt = req := by
  refine ⟨?_, ?_⟩
  · have hd : altsOrDefault req = alts := by simp [altsOrDefault, ha]
    simp only [colFound, hd, Bool.or_eq_true, List.any_eq_true]
    exact Or.inr ⟨alt, halt, by simpa using hcols⟩
  · have key : ∀ p ∈ requiredStructure, ∀ r ∈ p.2,
        ∀ a ∈ (columnAlternatives.lookup r).getD [],
        renameCol (columnMappingFor p.1) a = r := by decide
    exact key (sheet, reqs) hs req hr alt (by rw [ha]; simpa using halt)

/-- C3 witness: the `Tickets_By_Airline` sheet with column `Tickets` instead of
`Tickets Issued` passes the column check, and normalization renames `Tickets`
to `Tickets Issued`. -/
theorem c3_witness :
    colFound "Tickets Issued" ["Tickets"] = true ∧
      renameCol (columnMappingFor "Tickets_By_Airline") "Tickets" = "Tickets Issued" :=
  c3_alternatives_accepted "Tickets_By_Airline" "Tickets Issued" "Tickets"
    ["Date", "Branch", "Airline", "Tickets Issued"]
    ["Tickets_Issued", "tickets_issued", "Tickets"] ["Tickets"]
    (by decide) (by decide) (by decide) (by decide) (by decide)

/-- C10: a required column whose canonical name has no entry in the
alternatives table (`Date`, `Branch`, `Airline`, `Staff`, `Bank`) is satisfied
during validation exactly when its canonical spelling is present among the
whitespace-trimmed column names, case-sensitively. -/
theorem c10_no_alternative_exact_only (req : String) (cols : List String)
    (hreq : req ∈ ["Date", "Branch", "Airline", "Staff", "Bank"]) :
    columnAlternatives.lookup req = none ∧
      (colFound req (cols.map strip) = true ↔ req ∈ cols.map strip) := by
  have key : ∀ r ∈ (["Date", "Branch", "Airline", "Staff", "Bank"] : List String),
      columnAlternatives.lookup r = none ∧ altsOrDefault r = [r] := by decide
  obtain ⟨h1, h2⟩ := key req hreq
  refine ⟨h1, ?_⟩
  simp [colFound, h2]

/-- C10 witness: the `Date` column (whose header carries trailing whitespace)
is satisfied exactly by its canonical spelling. -/
theorem c10_witness :
    columnAlternatives.lookup "Date" = none ∧
      (colFound "Date" (["Date "].map strip) = true ↔ "Date" ∈ ["Date "].map strip) :=
  c10_no_alternative_exact_only "Date" ["Date "] (by decide)

/-- C2 counterexample: a parseable `Date` cell carrying the time-of-day 01:00
is loaded unchanged, so the loaded value is not a pure calendar date — the
loader's `pd.to_datetime` call does not drop time components. -/
theorem c2_counterexample :
    loadDateColumn [some ⟨20000, 3600⟩] = [DateVal.ts ⟨20000, 3600⟩] ∧
      pureDate (DateVal.ts ⟨20000, 3600⟩) = false := by decide

/-- C2 amended: loading coerces unparseable `Date` cells to the `NaT` sentinel,
and when every parseable input cell carries no time-of-day, every loaded value
is a pure calendar date; purity is preserved by loading, not established by
it. -/
theorem c2_amended (cells : List (Option Timestamp))
    (h : ∀ c ∈ cells, cellPure c = true) :
    toDatetime none = DateVal.NaT ∧ ∀ v ∈ loadDateColumn cells, pureDate v = true := by
  refine ⟨rfl, ?_⟩
  intro v hv
  simp only [loadDateColumn, List.mem_map] at hv
  obtain ⟨c, hc, rfl⟩ := hv
  have hpure := h c hc
  cases c with
  | none => rfl
  | some t => simpa [cellPure, toDatetime, pureDate] using hpure

/-- C2 amended witness: a column of one pure date and one unparseable cell
loads to pure values only. -/
theorem c2_amended_witness :
    toDatetime none = DateVal.NaT ∧
      ∀ v ∈ loadDateColumn [some ⟨1, 0⟩, none], pureDate v = true :=
  c2_amended [some ⟨1, 0⟩, none] (by decide)

/-- C5 counterexample: after a session has loaded a valid workbook, uploading a
workbook that fails validation leaves the previous dashboard visible — the
failure branch never clears `data_loaded` or `data_dict`. -/
theorem c5_counterexample :
    (validate_data_structure []).1 = false ∧
      dashboardShown (processUpload (processUpload initSession goodDict) []) = true := by
  decide

/-- C5 amended: a failed validation applies no normalization and leaves the
session state exactly as it was, so in a session with no previously loaded
data the dashboard stays hidden; a dashboard from earlier valid data, however,
remains visible. -/
theorem c5_amended (s : Session) (dict : List (String × STable))
    (h : (validate_data_structure dict).1 = false) :
    processUpload s dict = s ∧ dashboardShown (processUpload initSession dict) = false := by
  constructor
  · simp [processUpload, h]
  · have h3 : processUpload initSession dict = initSession := by simp [processUpload, h]
    rw [h3]
    rfl

/-- C5 amended witness: an empty workbook fails validation and, uploaded into a
fresh session, shows no dashboard. -/
theorem c5_amended_witness :
    processUpload initSession [] = initSession ∧
      dashboardShown (processUpload initSession []) = false :=
  c5_amended initSession [] (by decide)

/-- C7 counterexample: a `Tickets_By_Airline` sheet carrying both
`Tickets Issued` and its alternative `Tickets` passes validation, and
normalization renames `Tickets` to `Tickets Issued`, leaving the canonical name
twice in the post-normalization table. -/
theorem c7_counterexample :
    (validate_data_structure dupDict).1 = true ∧
      (colNames (normalize_column_names dupDict)).lookup "Tickets_By_Airline" =
        some ["Date", "Branch", "Airline", "Tickets Issued", "Tickets Issued"] ∧
      ¬(["Date", "Branch", "Airline", "Tickets Issued", "Tickets Issued"].count
          "Tickets Issued" ≤ 1) := by decide

/-- C7 amended: after normalization no registered alternative spelling remains
as a column name — every column of a normalized table is outside the domain of
the sheet's renaming table; a canonical name may however occur more than once
when the input carried both the canonical and an alternative spelling. -/
theorem c7_amended (sheet : String) (t : STable) (c : String)
    (hc : c ∈ (normalizeTable sheet t).cols) :
    (columnMappingFor sheet).lookup c = none := by
  cases h : column_mapping.lookup sheet with
  | none =>
    have hmf : columnMappingFor sheet = [] := by rw [columnMappingFor, h]; rfl
    rw [hmf]
    rfl
  | some m =>
    have hm : ∀ p ∈ m, m.lookup p.2 = none := cm_vals (sheet, m) (lookup_mem h)
    have hmf : columnMappingFor sheet = m := by rw [columnMappingFor, h]; rfl
    rw [hmf]
    simp only [normalizeTable, h, List.mem_map] at hc
    obtain ⟨c0, hc0, rfl⟩ := hc
    cases h0 : m.lookup c0 with
    | none => simp [renameCol, h0]
    | some v =>
      have hv := hm (c0, v) (lookup_mem h0)
      simp [renameCol, h0, hv]

/-- C7 amended witness: in the normalized duplicate-column table, the canonical
name `Tickets Issued` is not a key of the sheet's renaming table. -/
theorem c7_amended_witness :
    (columnMappingFor "Tickets_By_Airline").lookup "Tickets Issued" = none :=
  c7_amended "Tickets_By_Airline" dupTicketsTable "Tickets Issued" (by decide)

/-- C9: with data loaded, filtering a table that has a `Branch` column by a
branch name matching no record yields an empty table (not an error), and the
Total Tickets KPI over that empty filtered table reports `none` ("No data")
rather than zero. -/
theorem c9_empty_filter_no_data (s e : Int) (b : String) (t : FTable)
    (hB : t.hasBranch = true) (hAll : b ≠ "All")
    (habs : ∀ r ∈ t.rows, r.branch ≠ b) :
    (filterTable s e b t).rows = [] ∧
      totalTicketsKPI [("Tickets_By_Airline", filterTable s e b t)] = none := by
  have h1 : (filterTable s e b t).rows = [] := by
    simp only [filterTable]
    rw [if_pos ⟨hAll, hB⟩]
    refine List.filter_eq_nil_iff.mpr ?_
    intro r hr
    have hmem : r ∈ t.rows := by
      by_cases hd : t.hasDate = true
      · rw [if_pos hd] at hr
        exact List.mem_of_mem_filter hr
      · rw [if_neg hd] at hr
        exact hr
    simpa using habs r hmem
  refine ⟨h1, ?_⟩
  have h2 : List.lookup "Tickets_By_Airline"
      [("Tickets_By_Airline", filterTable s e b t)] = some (filterTable s e b t) := by
    simp [List.lookup]
  simp [totalTicketsKPI, h2, h1]

/-- C9 witness: filtering a one-record table by the absent branch `Ghost`
yields the empty table and a "No data" KPI. -/
theorem c9_witness :
    (filterTable 0 0 "Ghost" ⟨true, true, [⟨DateVal.ts ⟨0, 0⟩, "Main", 5⟩]⟩).rows = [] ∧
      totalTicketsKPI [("Tickets_By_Airline",
        filterTable 0 0 "Ghost" ⟨true, true, [⟨DateVal.ts ⟨0, 0⟩, "Main", 5⟩]⟩)] = none :=
  c9_empty_filter_no_data 0 0 "Ghost" ⟨true, true, [⟨DateVal.ts ⟨0, 0⟩, "Main", 5⟩]⟩
    rfl (by decide) (by decide)

/-- C1 counterexample: a record whose `Date` cell carries the calendar day 0
with time-of-day 01:00 has its date inside the range `[0, 0]`, yet the filter
drops it — the mask compares full timestamps against midnight of the bounds,
not calendar dates. -/
theorem c1_counterexample :
    (filterTable 0 0 "All" c1Table).rows = [] ∧
      c1Table.rows.filter (fun r => datePartInRange 0 0 r.date) = [c1Row] := by
  decide

/-- C1 amended: on a table with a `Date` column all of whose date values are
pure calendar dates (or `NaT`), filtering with start `s` and end `e` retains
exactly the records whose calendar date lies in the inclusive range `[s, e]`
(`NaT` records, having no date, are dropped); with `s = e = d` this is exactly
the records dated `d`. -/
theorem c1_amended (s e : Int) (t : FTable) (hd : t.hasDate = true)
    (hp : ∀ r ∈ t.rows, pureDate r.date = true) :
    (filterTable s e "All" t).rows =
      t.rows.filter (fun r => datePartInRange s e r.date) := by
  have hAll : ¬(("All" : String) ≠ "All" ∧ t.hasBranch = true) := by
    intro hcon
    exact hcon.1 rfl
  simp only [filterTable, hd, if_true, if_neg hAll]
  refine List.filter_congr fun r hr => ?_
  have hp2 := hp r hr
  cases hdate : r.date with
  | NaT => simp [dateInRange, datePartInRange, datePart]
  | ts ts0 =>
    obtain ⟨d0, s0⟩ := ts0
    rw [hdate] at hp2
    simp only [pureDate, beq_iff_eq] at hp2
    subst hp2
    simp only [dateInRange, datePartInRange, datePart]
    rw [← Bool.decide_and]
    exact decide_eq_decide.mpr (by simp [Timestamp.le]; omega)

/-- C1 amended witness: a two-record pure-date table filtered over `[0, 1]`
retains exactly the record dated inside the range. -/
theorem c1_amended_witness :
    (filterTable 0 1 "All" c1PureTable).rows =
      c1PureTable.rows.filter (fun r => datePartInRange 0 1 r.date) :=
  c1_amended 0 1 c1PureTable rfl (by decide)

/-- C8 counterexample: the footer formats the calendar date 5 March 2025 as
`2025-03-05` — year-month-day order — not as the day-month-year rendering
`05-03-2025` the claim states. -/
theorem c8_counterexample :
    footerDateFormat ⟨2025, 3, 5⟩ = "2025-03-05" ∧
      footerDateFormat ⟨2025, 3, 5⟩ ≠ "05-03-2025" := by decide

/-- The characters of a formatted footer date, spelled out. -/
lemma footer_data (d : SDate) :
    (footerDateFormat d).data =
      [digitChar (d.year / 1000), digitChar (d.year / 100 % 10),
       digitChar (d.year / 10 % 10), digitChar (d.year % 10), '-',
       digitChar (d.month / 10), digitChar (d.month % 10), '-',
       digitChar (d.day / 10), digitChar (d.day % 10)] := by
  simp [footerDateFormat, fmt4, fmt2, String.data_append]

/-- The numeric value of a digit character, for digits. -/
lemma digitChar_toNat : ∀ n, n < 10 → (digitChar n).toNat = 48 + n := by decide

/-- Digit characters are injective on digits. -/
lemma digitChar_inj {a b : Nat} (ha : a < 10) (hb : b < 10)
    (h : digitChar a = digitChar b) : a = b := by
  have h2 := congrArg Char.toNat h
  rw [digitChar_toNat a ha, digitChar_toNat b hb] at h2
  omega

/-- C8 amended: the footer formats a calendar date as 4-digit-year, month, day
(`%Y-%m-%d`), a fixed 10-character rendering with no time component; the
rendering determines the year, month and day, so any valid calendar date
round-trips through it — but the field order is year-month-day, not
day-month-year. -/
theorem c8_amended (d1 d2 : SDate)
    (h1y : d1.year < 10000) (h1m : d1.month < 100) (h1d : d1.day < 100)
    (h2y : d2.year < 10000) (h2m : d2.month < 100) (h2d : d2.day < 100)
    (heq : footerDateFormat d1 = footerDateFormat d2) :
    (footerDateFormat d1).length = 10 ∧ d1 = d2 := by
  obtain ⟨y1, m1, dd1⟩ := d1
  obtain ⟨y2, m2, dd2⟩ := d2
  dsimp only at h1y h1m h1d h2y h2m h2d
  constructor
  · have hl : (footerDateFormat ⟨y1, m1, dd1⟩).length =
        (footerDateFormat ⟨y1, m1, dd1⟩).data.length := rfl
    rw [hl, footer_data]
    rfl
  · have hdata := congrArg String.data heq
    rw [footer_data, footer_data] at hdata
    dsimp only at hdata
    simp only [List.cons.injEq, and_true, true_and] at hdata
    obtain ⟨e1, e2, e3, e4, e5, e6, e7, e8⟩ := hdata
    have q1 := digitChar_inj (by omega) (by omega) e1
    have q2 := digitChar_inj (by omega) (by omega) e2
    have q3 := digitChar_inj (by omega) (by omega) e3
    have q4 := digitChar_inj (by omega) (by omega) e4
    have q5 := digitChar_inj (by omega) (by omega) e5
    have q6 := digitChar_inj (by omega) (by omega) e6
    have q7 := digitChar_inj (by omega) (by omega) e7
    have q8 := digitChar_inj (by omega) (by omega) e8
    have hy : y1 = y2 := by omega
    have hm : m1 = m2 := by omega
    have hdd : dd1 = dd2 := by omega
    simp [hy, hm, hdd]

/-- C8 amended witness: the rendering of 5 March 2025 is 10 characters and the
round-trip equality is discharged at that date. -/
theorem c8_amended_witness :
    (footerDateFormat ⟨2025, 3, 5⟩).length = 10 ∧
      (⟨2025, 3, 5⟩ : SDate) = ⟨2025, 3, 5⟩ :=
  c8_amended ⟨2025, 3, 5⟩ ⟨2025, 3, 5⟩ (by decide) (by decide) (by decide)
    (by decide) (by decide) (by decide) rfl

/-- A sheet entry whose sheet is absent from the workbook contributes exactly
one "Missing sheet" message and fails. -/
lemma validateSheet_absent (dict : List (String × STable)) (e : String × List String)
    (hl : dict.lookup e.1 = none) :
    validateSheet dict e = ([.missingSheet e.1], false) := by
  simp [validateSheet, hl]

/-- A sheet entry whose sheet is present contributes no "Missing sheet"
message, and contributes at least one message about that sheet. -/
lemma validateSheet_present_parts (dict : List (String × STable))
    (e : String × List String) (t : STable) (hl : dict.lookup e.1 = some t) :
    (validateSheet dict e).1.filter isMissingSheetMsg = [] ∧
      ∃ m ∈ (validateSheet dict e).1, mentionsSheet e.1 m = true := by
  obtain ⟨s, cols⟩ := e
  simp only [validateSheet, hl]
  split_ifs with h1 h2 <;> simp [isMissingSheetMsg, mentionsSheet]

/-- The validation fold over any sheet list, from any accumulator, splits into
the conjunction of the per-sheet flags and the concatenation of the per-sheet
messages. -/
lemma foldl_validate (dict : List (String × STable)) (rs : List (String × List String))
    (b : Bool) (ms : List Msg) :
    rs.foldl (fun acc entry =>
        let r := validateSheet dict entry
        (acc.1 && r.2, acc.2 ++ r.1)) (b, ms) =
      (b && (rs.map (fun e => (validateSheet dict e).2)).all id,
       ms ++ (rs.map (fun e => (validateSheet dict e).1)).flatten) := by
  induction rs generalizing b ms with
  | nil => simp
  | cons e tl ih =>
    simp only [List.foldl_cons, List.map_cons, List.all_cons, List.flatten_cons]
    rw [ih]
    simp [Bool.and_assoc, List.append_assoc]

/-- `validate_data_structure` is the conjunction of the per-sheet flags paired
with the concatenation of the per-sheet messages, in sheet order. -/
lemma validate_parts (dict : List (String × STable)) :
    validate_data_structure dict =
      ((requiredStructure.map (fun e => (validateSheet dict e).2)).all id,
       (requiredStructure.map (fun e => (validateSheet dict e).1)).flatten) := by
  rw [validate_data_structure, foldl_validate]
  simp

/-- When no entry of `rs` names an absent-or-restricted sheet `s0` and every
entry's sheet is present, the messages of `rs` contain no "Missing sheet"
message. -/
lemma filter_missing_nil (dict : List (String × STable)) (s0 : String)
    (rs : List (String × List String))
    (hnot : ∀ e ∈ rs, e.1 ≠ s0)
    (hpres : ∀ e ∈ rs, e.1 ≠ s0 → ∃ t, dict.lookup e.1 = some t) :
    ((rs.map (fun e => (validateSheet dict e).1)).flatten).filter isMissingSheetMsg = [] := by
  induction rs with
  | nil => rfl
  | cons e tl ih =>
    simp only [List.map_cons, List.flatten_cons, List.filter_append]
    obtain ⟨t, ht⟩ := hpres e (List.mem_cons_self _ _) (hnot e (List.mem_cons_self _ _))
    rw [(validateSheet_present_parts dict e t ht).1,
      ih (fun p hp => hnot p (List.mem_cons_of_mem _ hp))
        (fun p hp => hpres p (List.mem_cons_of_mem _ hp))]
    rfl

/-- When exactly one entry of `rs` names the absent sheet `s0` and every other
entry's sheet is present, the "Missing sheet" messages of `rs` are exactly one
message naming `s0`. -/
lemma filter_missing_single (dict : List (String × STable)) (s0 : String)
    (rs : List (String × List String))
    (habs : dict.lookup s0 = none)
    (hcount : (rs.map Prod.fst).count s0 = 1)
    (hrest : ∀ e ∈ rs, e.1 ≠ s0 → ∃ t, dict.lookup e.1 = some t) :
    ((rs.map (fun e => (validateSheet dict e).1)).flatten).filter isMissingSheetMsg =
      [Msg.missingSheet s0] := by
  induction rs with
  | nil => simp at hcount
  | cons e tl ih =>
    simp only [List.map_cons, List.flatten_cons, List.filter_append]
    by_cases he : e.1 = s0
    · have ha := validateSheet_absent dict e (he ▸ habs)
      have hc0 : s0 ∉ tl.map Prod.fst := by
        rw [← List.count_eq_zero]
        simp only [List.map_cons, List.count_cons, he] at hcount
        simpa using hcount
      have hnot : ∀ p ∈ tl, p.1 ≠ s0 := by
        intro p hp hps
        exact hc0 (hps ▸ List.mem_map_of_mem _ hp)
      rw [ha, filter_missing_nil dict s0 tl hnot
        (fun p hp => hrest p (List.mem_cons_of_mem _ hp))]
      simp [isMissingSheetMsg, he]
    · obtain ⟨t, ht⟩ := hrest e (List.mem_cons_self _ _) he
      have hc1 : (tl.map Prod.fst).count s0 = 1 := by
        simp only [List.map_cons, List.count_cons] at hcount
        simpa [he] using hcount
      rw [(validateSheet_present_parts dict e t ht).1,
        ih hc1 (fun p hp => hrest p (List.mem_cons_of_mem _ hp))]
      rfl

/-- C4: validation walks all five canonical sheets in one pass; when exactly
one canonical sheet is absent and every other canonical sheet is present, the
overall flag is false, the message list contains exactly one "Missing sheet"
message naming the absent sheet, and every other sheet still contributes a
message about itself. -/
theorem c4_exhaustive_one_missing (dict : List (String × STable)) (s0 : String)
    (hmem : s0 ∈ requiredStructure.map Prod.fst)
    (habs : dict.lookup s0 = none)
    (hrest : ∀ e ∈ requiredStructure, e.1 ≠ s0 → ∃ t, dict.lookup e.1 = some t) :
    (validate_data_structure dict).1 = false ∧
      (validate_data_structure dict).2.filter isMissingSheetMsg = [Msg.missingSheet s0] ∧
      ∀ e ∈ requiredStructure, e.1 ≠ s0 →
        ∃ m ∈ (validate_data_structure dict).2, mentionsSheet e.1 m = true := by
  obtain ⟨e0, he0, he0s⟩ := List.mem_map.mp hmem
  have ha0 := validateSheet_absent dict e0 (he0s ▸ habs)
  refine ⟨?_, ?_, ?_⟩
  · rw [validate_parts]
    cases hall : (requiredStructure.map fun e => (validateSheet dict e).2).all id with
    | false => rfl
    | true =>
      exfalso
      have hx := List.all_eq_true.mp hall ((validateSheet dict e0).2)
        (List.mem_map_of_mem _ he0)
      rw [ha0] at hx
      simp at hx
  · rw [validate_parts]
    have hcount : (requiredStructure.map Prod.fst).count s0 = 1 :=
      List.count_eq_one_of_mem (by decide) hmem
    exact filter_missing_single dict s0 requiredStructure habs hcount hrest
  · intro e he hne
    obtain ⟨t, ht⟩ := hrest e he hne
    obtain ⟨m, hm, hmen⟩ := (validateSheet_present_parts dict e t ht).2
    refine ⟨m, ?_, hmen⟩
    rw [validate_parts]
    exact List.mem_flatten.mpr ⟨_, List.mem_map_of_mem _ he, hm⟩

/-- C4 witness: a workbook with the four other canonical sheets but no
`Bank_Balances` sheet fails validation with exactly one "Missing sheet"
message, every other sheet still reported. -/
theorem c4_witness :
    (validate_data_structure missingBankDict).1 = false ∧
      (validate_data_structure missingBankDict).2.filter isMissingSheetMsg =
        [Msg.missingSheet "Bank_Balances"] ∧
      ∀ e ∈ requiredStructure, e.1 ≠ "Bank_Balances" →
        ∃ m ∈ (validate_data_structure missingBankDict).2, mentionsSheet e.1 m = true :=
  c4_exhaustive_one_missing missingBankDict "Bank_Balances" (by decide) (by decide)
    (by
      intro e he hne
      fin_cases he
      · exact ⟨goodTable ["Date", "Daily Sales", "Cash Balance", "Bank Balance"], rfl⟩
      · exact ⟨goodTable ["Date", "Branch", "Airline", "Tickets Issued"], rfl⟩
      · exact ⟨goodTable ["Date", "Branch", "Airline", "Sales"], rfl⟩
      · exact ⟨goodTable ["Date", "Branch", "Staff", "Tickets Issued", "Sales"], rfl⟩
      · exact absurd rfl hne)

end Tawsif
